import Mathlib

/-
Verification development for the organizer-backend repository.

Shallow embedding conventions:
- Python `datetime` values are modelled as `Int` timestamps (seconds since the
  epoch); `datetime.isoformat` / `datetime.fromisoformat` are injective
  renderings of such a timestamp and are modelled by the timestamp itself.
- Python `timedelta` values are modelled as `Int` total seconds
  (`int(td.total_seconds())` is then the identity); the normalized `seconds`
  attribute of a `timedelta` is `total_seconds mod 86400`, with Python floor
  semantics, i.e. `Int.emod`.
- A parsed JSON response is modelled by a structure mirroring the fields that
  `create_scheduled_assignments` reads; `dict.get` with a default is modelled
  by an `Option` field together with `Option.getD`.
- The call to the external generative model and the wall clock reading
  `datetime.now()` are inputs of the embedding: `model_response` stands for
  `model.generate_content(prompt).text` as a function of the data interpolated
  into the prompt, and `now` for the value of `datetime.now()`.
-/

/-- Embeds `Assignment.__init__` from src/organizer.py: name, due date,
expected completion time and a completion flag defaulting to False.
No validation is performed by the constructor. -/
structure Assignment where
  name : String
  due_date : Int
  expected_completion_time : Int
  completed : Bool := false
deriving DecidableEq

/-- Embeds `ScheduledAssignment` from src/organizer.py together with the two
attributes `session_duration` and `session_number` that
`create_scheduled_assignments` in src/gemini.py always attaches to every
object it returns. -/
structure ScheduledAssignment where
  name : String
  due_date : Int
  expected_completion_time : Int
  assigned_date : Int
  session_duration : Int
  session_number : Int
deriving DecidableEq

/-- Embeds `TimeSlot.__init__` from src/organizer.py; the uuid is modelled as
an opaque `Nat` identifier. -/
structure TimeSlot where
  start : Int
  duration : Int
  id : Nat
deriving DecidableEq

/-- Embeds `UserPreferences.__init__` from src/organizer.py: the four fields
are stored unchanged and no validation whatsoever is performed. -/
structure UserPreferences where
  min_study_length : Int
  max_study_length : Int
  min_break_length : Int
  max_break_length : Int
deriving DecidableEq

/-- One session object of the parsed model response, as read by
`create_scheduled_assignments` (src/gemini.py lines 146-161): `start_time` is
the parsed timestamp (the source's handling of a trailing Z is part of ISO
parsing, which the `Int` timestamp model absorbs); `duration` is read with
`session.get('duration', 0)` and `session_number` with
`session.get('session_number', 1)`, so both are optional here. -/
structure ResponseSession where
  start_time : Int
  duration : Option Int
  session_number : Option Int
deriving DecidableEq

/-- One entry of `newly_scheduled_assignments` in the parsed model response,
as read by `create_scheduled_assignments` (src/gemini.py lines 135-143):
`assignment_name` is read with `item.get('assignment_name')` (None when
absent) and `sessions` with `item.get('sessions', [])`. The response schema in
src/prompts.py also carries `due_date` and `expected_completion_time` fields
on each entry; they are part of the parsed data but are never read by the
code. -/
structure ResponseItem where
  assignment_name : Option String
  due_date : Int
  expected_completion_time : Int
  sessions : Option (List ResponseSession)
deriving DecidableEq

/-- The parsed model response: `response_data.get('newly_scheduled_assignments', [])`
in src/gemini.py line 135. -/
structure GeminiResponse where
  newly_scheduled_assignments : Option (List ResponseItem)
deriving DecidableEq

/-- Embeds the dictionary comprehension `{a.name: a for a in assignments}`
followed by `.get(name)` (src/gemini.py lines 128 and 141): iterating in list
order with later duplicates overwriting earlier ones, so the result is the
last assignment in the list bearing the name, or none. -/
def assignmentLookup (assignments : List Assignment) (name : String) : Option Assignment :=
  assignments.foldl (fun acc a => if a.name = name then some a else acc) none

/-- The lookup performed for one response item (src/gemini.py lines 137-143):
`assignment_dict.get(item.get('assignment_name'))`, none when the key is
absent or no assignment matches. -/
def itemAssignment (assignments : List Assignment) (item : ResponseItem) : Option Assignment :=
  match item.assignment_name with
  | none => none
  | some n => assignmentLookup assignments n

/-- Embeds the body of the inner session loop of `create_scheduled_assignments`
(src/gemini.py lines 146-175): the returned object takes name, due date and
expected completion time from the original assignment, the assigned date from
the response session's parsed start time, the duration from
`session.get('duration', 0)` and the number from
`session.get('session_number', 1)`. -/
def sessionToScheduled (a : Assignment) (s : ResponseSession) : ScheduledAssignment :=
  { name := a.name
    due_date := a.due_date
    expected_completion_time := a.expected_completion_time
    assigned_date := s.start_time
    session_duration := s.duration.getD 0
    session_number := s.session_number.getD 1 }

/-- One iteration of the outer loop of `create_scheduled_assignments`
(src/gemini.py lines 135-175): look the item's assignment name up; on a miss,
`continue` (the accumulator is unchanged); on a hit, append one scheduled
assignment per session of the item. -/
def createStep (assignments : List Assignment) (acc : List ScheduledAssignment)
    (item : ResponseItem) : List ScheduledAssignment :=
  match itemAssignment assignments item with
  | none => acc
  | some a => acc ++ (item.sessions.getD []).map (sessionToScheduled a)

/-- Embeds `create_scheduled_assignments` from src/gemini.py (lines 123-177):
fold the outer loop over the entries of `newly_scheduled_assignments`
(defaulting to the empty list), starting from the empty accumulator. -/
def create_scheduled_assignments (gemini_response : GeminiResponse)
    (assignments : List Assignment) : List ScheduledAssignment :=
  (gemini_response.newly_scheduled_assignments.getD []).foldl
    (createStep assignments) []

/-- The per-assignment record interpolated into the prompt
(src/gemini.py lines 30-37). -/
structure AssignmentData where
  name : String
  due_date : Int
  expected_completion_time : Int
deriving DecidableEq

/-- The per-slot record interpolated into the prompt
(src/gemini.py lines 40-47). -/
structure TimeSlotData where
  start : Int
  duration : Int
  id : Nat
deriving DecidableEq

/-- The preference record interpolated into the prompt
(src/gemini.py lines 50-54). -/
structure PreferencesData where
  min_study_length : Int
  max_study_length : Int
  break_length : Int
deriving DecidableEq

/-- Everything of the inputs that the prompt string of `schedule_assignments`
(src/gemini.py lines 57-109) depends on: the current wall-clock time
interpolated at line 60 and the three formatted data blocks. The rendering of
this record into the literal prompt string is injective and is not modelled
further. -/
structure PromptInput where
  now : Int
  assignments_data : List AssignmentData
  time_slots_data : List TimeSlotData
  preferences_data : PreferencesData
deriving DecidableEq

/-- Error taxonomy of the scheduling entry point. The source never raises any
of these; the type records what the specification expects the entry point to
be able to signal. -/
inductive ScheduleError where
  | invalidPreferences
deriving DecidableEq

/-- Formats one assignment for the prompt (src/gemini.py lines 31-37). -/
def assignmentData (a : Assignment) : AssignmentData :=
  { name := a.name
    due_date := a.due_date
    expected_completion_time := a.expected_completion_time }

/-- Formats one time slot for the prompt (src/gemini.py lines 41-47). -/
def timeSlotData (ts : TimeSlot) : TimeSlotData :=
  { start := ts.start
    duration := ts.duration
    id := ts.id }

/-- Formats the user preferences for the prompt (src/gemini.py lines 50-54):
only the minimum break length is interpolated, as `break_length`. -/
def preferencesData (p : UserPreferences) : PreferencesData :=
  { min_study_length := p.min_study_length
    max_study_length := p.max_study_length
    break_length := p.min_break_length }

/-- The full prompt payload of `schedule_assignments`. -/
def promptInput (now : Int) (assignments : List Assignment)
    (available_time_slots : List TimeSlot) (user_preferences : UserPreferences) :
    PromptInput :=
  { now := now
    assignments_data := assignments.map assignmentData
    time_slots_data := available_time_slots.map timeSlotData
    preferences_data := preferencesData user_preferences }

/-- Embeds `schedule_assignments` from src/gemini.py (lines 24-120). The
function formats its inputs, interpolates them together with
`datetime.now()` into a prompt, sends the prompt to the generative model and
returns `response.text`. It contains no validation and no failure path, so
the `Except` result, which records its ability to raise, is always `ok`:
`model_response` is the external model as a function of the prompt payload
and `now` is the sampled wall-clock time. -/
def schedule_assignments (model_response : PromptInput → String) (now : Int)
    (assignments : List Assignment) (available_time_slots : List TimeSlot)
    (user_preferences : UserPreferences) : Except ScheduleError String :=
  Except.ok (model_response
    (promptInput now assignments available_time_slots user_preferences))

/-- Embeds the static method `DayWidget.check_overlap` from src/gui.py
(lines 575-579): two time ranges overlap when the larger start is strictly
before the smaller end. -/
def check_overlap (slot_start slot_end assignment_start assignment_end : Int) : Bool :=
  max slot_start assignment_start < min slot_end assignment_end

/-- The normalized `seconds` attribute of a Python `timedelta` whose total
length in seconds is `td`: Python normalizes to `0 <= seconds < 86400` with
floor semantics, which is `Int.emod`. -/
def timedeltaSeconds (td : Int) : Int :=
  Int.emod td 86400

/-- Renders a count with a unit word, pluralizing exactly when the count is
not one, as the conditional expressions inside the f-strings of
`format_duration` do (src/gemini.py lines 186-190). -/
def pluralUnit (n : Int) (unit : String) : String :=
  toString n ++ (" ") ++ unit ++ (if n = 1 then ("") else ("s"))

/-- Embeds `format_duration` from src/gemini.py (lines 180-190):
`hours = td.seconds // 3600`, `minutes = (td.seconds % 3600) // 60`, then one
of three format strings. All operands of the divisions are nonnegative, so
`Int.ediv` and `Int.emod` agree with Python floor division here. -/
def format_duration (td : Int) : String :=
  let hours : Int := Int.ediv (timedeltaSeconds td) 3600
  let minutes : Int := Int.ediv (Int.emod (timedeltaSeconds td) 3600) 60
  if 0 < hours ∧ 0 < minutes then
    pluralUnit hours ("hour") ++ (" and ") ++ pluralUnit minutes ("minute")
  else if 0 < hours then
    pluralUnit hours ("hour")
  else
    pluralUnit minutes ("minute")

/-- The flattened list of (matched assignment, response session) pairs that
the loop of `create_scheduled_assignments` visits, in visiting order. -/
def matchedSessions (assignments : List Assignment) :
    List ResponseItem → List (Assignment × ResponseSession)
  | [] => []
  | item :: rest =>
    match itemAssignment assignments item with
    | none => matchedSessions assignments rest
    | some a =>
        (item.sessions.getD []).map (fun s => (a, s)) ++
          matchedSessions assignments rest

/-- Rewrites each response item's unused metadata fields (`due_date` and
`expected_completion_time`) to zero, leaving the fields the code reads
untouched. -/
def eraseItemMeta (item : ResponseItem) : ResponseItem :=
  { item with due_date := 0, expected_completion_time := 0 }

/-- Applies `eraseItemMeta` to every entry of a response. -/
def eraseResponseMeta (resp : GeminiResponse) : GeminiResponse :=
  ⟨some ((resp.newly_scheduled_assignments.getD []).map eraseItemMeta)⟩

/-- Sample input assignment used by concrete evaluations: one hour of effort. -/
def hwAssignment : Assignment :=
  ⟨"HW", 1000000, 3600, false⟩

/-- Sample response session: 60 seconds starting at time 900. -/
def hwSession : ResponseSession :=
  ⟨900, some 60, some 1⟩

/-- Sample response item matching `hwAssignment` by name. -/
def hwItem : ResponseItem :=
  ⟨some ("HW"), 5, 7, some [hwSession]⟩

/-- Sample response item whose assignment name matches no input assignment. -/
def unknownItem : ResponseItem :=
  ⟨some ("Ghost"), 5, 7, some [⟨0, some 60, some 1⟩]⟩

/-- Sample preferences: 30-minute floor, 90-minute ceiling, 15-minute break. -/
def minPrefs : UserPreferences :=
  ⟨1800, 5400, 900, 900⟩

/-- Sample preferences violating the documented invariant: both session
bounds are zero. -/
def invalidPrefs : UserPreferences :=
  ⟨0, 0, 900, 900⟩

/-- Sample response item carrying a single 600-second session numbered 5 for
`hwAssignment`, whose effort is 3600 seconds. -/
def badNumberItem : ResponseItem :=
  ⟨some ("HW"), 5, 7, some [⟨900, some 600, some 5⟩]⟩

/-- Sample response item with two sessions occupying the same interval. -/
def overlapItem : ResponseItem :=
  ⟨some ("HW"), 5, 7, some [⟨0, some 3600, some 1⟩, ⟨0, some 3600, some 2⟩]⟩

/-- Sample window wide enough to hold both sessions of `overlapItem`. -/
def wideSlot : TimeSlot :=
  ⟨0, 7200, 0⟩

/-- Sample response item whose session lies far outside `onlySlot`. -/
def farItem : ResponseItem :=
  ⟨some ("HW"), 5, 7, some [⟨999999, some 3600, some 1⟩]⟩

/-- Sample window, the only one offered alongside `farItem`. -/
def onlySlot : TimeSlot :=
  ⟨0, 3600, 0⟩

/-- Containment of a scheduled session's half-open interval in a time slot's
half-open interval. -/
def sessionWithinSlot (sa : ScheduledAssignment) (w : TimeSlot) : Prop :=
  w.start ≤ sa.assigned_date ∧
    sa.assigned_date + sa.session_duration ≤ w.start + w.duration

instance (sa : ScheduledAssignment) (w : TimeSlot) :
    Decidable (sessionWithinSlot sa w) := by
  unfold sessionWithinSlot; infer_instance

theorem foldl_createStep (assignments : List Assignment) :
    ∀ (items : List ResponseItem) (acc : List ScheduledAssignment),
      items.foldl (createStep assignments) acc =
        acc ++ (matchedSessions assignments items).map
          (fun q => sessionToScheduled q.1 q.2) := by
  intro items
  induction items with
  | nil => intro acc; simp [matchedSessions]
  | cons item rest ih =>
      intro acc
      cases h : itemAssignment assignments item with
      | none =>
          simp [List.foldl_cons, createStep, matchedSessions, h, ih]
      | some a =>
          simp [List.foldl_cons, createStep, matchedSessions, h, ih,
            List.map_append, List.append_assoc]

theorem create_scheduled_assignments_as_map (resp : GeminiResponse)
    (assignments : List Assignment) :
    create_scheduled_assignments resp assignments =
      (matchedSessions assignments
          (resp.newly_scheduled_assignments.getD [])).map
        (fun q => sessionToScheduled q.1 q.2) := by
  simpa [create_scheduled_assignments] using
    foldl_createStep assignments (resp.newly_scheduled_assignments.getD []) []

theorem assignmentLookup_foldl (n : String) :
    ∀ (asg : List Assignment) (acc : Option Assignment) (a : Assignment),
      asg.foldl (fun acc x => if x.name = n then some x else acc) acc = some a →
      (a ∈ asg ∧ a.name = n) ∨ acc = some a := by
  intro asg
  induction asg with
  | nil => intro acc a h; exact Or.inr h
  | cons x xs ih =>
      intro acc a h
      simp only [List.foldl_cons] at h
      rcases ih _ a h with ⟨hmem, hname⟩ | hacc
      · exact Or.inl ⟨List.mem_cons_of_mem _ hmem, hname⟩
      · by_cases hx : x.name = n
        · rw [if_pos hx] at hacc
          cases hacc
          exact Or.inl ⟨List.mem_cons_self _ _, hx⟩
        · rw [if_neg hx] at hacc
          exact Or.inr hacc

theorem assignmentLookup_mem {asg : List Assignment} {n : String}
    {a : Assignment} (h : assignmentLookup asg n = some a) :
    a ∈ asg ∧ a.name = n := by
  rcases assignmentLookup_foldl n asg none a h with h1 | h2
  · exact h1
  · cases h2

theorem itemAssignment_mem {asg : List Assignment} {item : ResponseItem}
    {a : Assignment} (h : itemAssignment asg item = some a) :
    a ∈ asg ∧ item.assignment_name = some a.name := by
  unfold itemAssignment at h
  cases hn : item.assignment_name with
  | none => rw [hn] at h; cases h
  | some n =>
      rw [hn] at h
      rcases assignmentLookup_mem h with ⟨hmem, hname⟩
      exact ⟨hmem, by rw [hname]⟩

theorem matchedSessions_mem {asg : List Assignment}
    {q : Assignment × ResponseSession} :
    ∀ {items : List ResponseItem}, q ∈ matchedSessions asg items →
      ∃ item ∈ items, itemAssignment asg item = some q.1 ∧
        q.2 ∈ item.sessions.getD [] := by
  intro items
  induction items with
  | nil => intro h; simp [matchedSessions] at h
  | cons item rest ih =>
      intro h
      cases hmatch : itemAssignment asg item with
      | none =>
          rw [matchedSessions, hmatch] at h
          rcases ih h with ⟨it, hit, hmt, hs⟩
          exact ⟨it, List.mem_cons_of_mem _ hit, hmt, hs⟩
      | some a =>
          rw [matchedSessions, hmatch] at h
          rcases List.mem_append.mp h with hl | hr
          · rcases List.mem_map.mp hl with ⟨s, hs, hqs⟩
            refine ⟨item, List.mem_cons_self _ _, ?_, ?_⟩
            · rw [hmatch, ← hqs]
            · rw [← hqs]; exact hs
          · rcases ih hr with ⟨it, hit, hmt, hs⟩
            exact ⟨it, List.mem_cons_of_mem _ hit, hmt, hs⟩

theorem matchedSessions_nil_assignments :
    ∀ items : List ResponseItem, matchedSessions [] items = [] := by
  intro items
  induction items with
  | nil => rfl
  | cons item rest ih =>
      cases hn : item.assignment_name with
      | none => rw [matchedSessions]; simp [itemAssignment, hn, ih]
      | some n => rw [matchedSessions]; simp [itemAssignment, hn, assignmentLookup, ih]

theorem itemAssignment_eraseItemMeta (asg : List Assignment)
    (item : ResponseItem) :
    itemAssignment asg (eraseItemMeta item) = itemAssignment asg item := rfl

theorem matchedSessions_eraseItemMeta (asg : List Assignment) :
    ∀ items : List ResponseItem,
      matchedSessions asg (items.map eraseItemMeta) =
        matchedSessions asg items := by
  intro items
  induction items with
  | nil => rfl
  | cons item rest ih =>
      cases hmatch : itemAssignment asg item with
      | none =>
          rw [List.map_cons, matchedSessions, itemAssignment_eraseItemMeta,
            hmatch, matchedSessions, hmatch, ih]
      | some a =>
          rw [List.map_cons, matchedSessions, itemAssignment_eraseItemMeta,
            hmatch, matchedSessions, hmatch, ih]
          rfl

theorem format_duration_emod_congr (x y : Int)
    (h : Int.emod x 86400 = Int.emod y 86400) :
    format_duration x = format_duration y := by
  unfold format_duration timedeltaSeconds
  rw [h]

/-- C1 counterexample: `schedule_assignments` called with preferences whose
minimum and maximum session lengths are both zero (non-positive) does not
fail: it returns the model's answer for the prompt built from the invalid
preferences, not an `invalidPreferences` error. -/
theorem invalid_preferences_not_rejected :
    invalidPrefs.min_study_length ≤ 0 ∧
    schedule_assignments (fun _ => ("answer")) 0 [] [] invalidPrefs =
      Except.ok ("answer") ∧
    schedule_assignments (fun _ => ("answer")) 0 [] [] invalidPrefs ≠
      Except.error ScheduleError.invalidPreferences :=
  ⟨by decide, rfl, by intro h; cases h⟩

/-- C1 as amended: neither `UserPreferences.__init__` nor
`schedule_assignments` validates the session-length bounds; a call whose
preferences have a non-positive `min_session` or `max_session`, or
`min_session > max_session`, still succeeds and returns the model response
for the prompt built from those preferences. -/
theorem schedule_assignments_accepts_invalid_preferences
    (model_response : PromptInput → String) (now : Int)
    (assignments : List Assignment) (available_time_slots : List TimeSlot)
    (p : UserPreferences)
    (h : p.min_study_length ≤ 0 ∨ p.max_study_length ≤ 0 ∨
      p.max_study_length < p.min_study_length) :
    schedule_assignments model_response now assignments available_time_slots p =
      Except.ok (model_response
        (promptInput now assignments available_time_slots p)) := rfl

/-- Witness for the amended C1 theorem at concrete invalid preferences. -/
theorem schedule_assignments_accepts_invalid_preferences_witness :
    (invalidPrefs.min_study_length ≤ 0 ∨ invalidPrefs.max_study_length ≤ 0 ∨
      invalidPrefs.max_study_length < invalidPrefs.min_study_length) ∧
    schedule_assignments (fun _ => ("answer")) 0 [] [] invalidPrefs =
      Except.ok ((fun _ : PromptInput => ("answer"))
        (promptInput 0 [] [] invalidPrefs)) :=
  ⟨Or.inl (by decide),
    schedule_assignments_accepts_invalid_preferences
      (fun _ => ("answer")) 0 [] [] invalidPrefs (Or.inl (by decide))⟩

/-- C2 counterexample: two calls to `schedule_assignments` with identical
assignments, identical time slots and identical preferences, but made at two
different wall-clock times, return different outputs, because the current
time is interpolated into the prompt the model answers. -/
theorem schedule_assignments_output_depends_on_clock :
    schedule_assignments (fun pi => toString pi.now) 0 [] [] minPrefs ≠
      schedule_assignments (fun pi => toString pi.now) 1 [] [] minPrefs := by
  intro h
  simp only [schedule_assignments, promptInput] at h
  injection h with h2
  exact absurd h2 (by decide)

/-- C2 as amended: the output of `schedule_assignments` is a function of the
model's response behaviour, the sampled wall-clock time, the assignments, the
time slots and the preferences; once the model and the clock value are also
held fixed, identical assignments, slots and preferences give identical
output (the source on its own is not deterministic in the claim's three
inputs, since the clock and the remote model vary between calls). -/
theorem schedule_assignments_deterministic_given_clock_and_model
    (model_response : PromptInput → String) (now : Int)
    (a1 a2 : List Assignment) (s1 s2 : List TimeSlot)
    (p1 p2 : UserPreferences)
    (ha : a1 = a2) (hs : s1 = s2) (hp : p1 = p2) :
    schedule_assignments model_response now a1 s1 p1 =
      schedule_assignments model_response now a2 s2 p2 := by
  rw [ha, hs, hp]

/-- Witness for the amended C2 theorem at concrete equal inputs. -/
theorem schedule_assignments_deterministic_given_clock_and_model_witness :
    ([hwAssignment] : List Assignment) = [hwAssignment] ∧
    ([wideSlot] : List TimeSlot) = [wideSlot] ∧
    (minPrefs : UserPreferences) = minPrefs ∧
    schedule_assignments (fun _ => ("answer")) 5 [hwAssignment] [wideSlot]
        minPrefs =
      schedule_assignments (fun _ => ("answer")) 5 [hwAssignment] [wideSlot]
        minPrefs :=
  ⟨rfl, rfl, rfl,
    schedule_assignments_deterministic_given_clock_and_model
      (fun _ => ("answer")) 5 [hwAssignment] [hwAssignment] [wideSlot]
      [wideSlot] minPrefs minPrefs rfl rfl rfl⟩

/-- C3 counterexample: with preferences demanding sessions of at least 1800
seconds, and an assignment of 3600 seconds of effort (so the below-floor
exception does not apply), a response carrying a 60-second session yields an
output session of length 60, strictly below `min_session`. -/
theorem session_below_min_length_produced :
    (create_scheduled_assignments ⟨some [hwItem]⟩ [hwAssignment]).map
        ScheduledAssignment.session_duration = [60] ∧
    (60 : Int) < minPrefs.min_study_length ∧
    minPrefs.min_study_length ≤ hwAssignment.expected_completion_time := by
  decide

/-- C3 as amended: every output session's length is copied verbatim from the
response's `duration` field (0 when the field is absent); the code enforces
no lower or upper bound against the preferences, which do not even reach
`create_scheduled_assignments`. -/
theorem session_durations_verbatim_from_response (resp : GeminiResponse)
    (assignments : List Assignment) :
    (create_scheduled_assignments resp assignments).map
        ScheduledAssignment.session_duration =
      (matchedSessions assignments
          (resp.newly_scheduled_assignments.getD [])).map
        (fun q => q.2.duration.getD 0) := by
  rw [create_scheduled_assignments_as_map, List.map_map]
  rfl

/-- C4 counterexample: for an assignment of 3600 seconds of effort, a
response carrying a single 600-second session numbered 5 yields exactly that
output: the session lengths sum to 600, not to the effort, and the sequence
numbers are `[5]`, not a contiguous range starting at 1. -/
theorem effort_and_numbering_not_enforced :
    (create_scheduled_assignments ⟨some [badNumberItem]⟩ [hwAssignment]).map
        (fun sa => (sa.session_duration, sa.session_number)) = [(600, 5)] ∧
    (600 : Int) ≠ hwAssignment.expected_completion_time := by
  decide

/-- C4 as amended: output session lengths and sequence numbers are copied
verbatim from the response (`duration` defaulting to 0, `session_number`
defaulting to 1); the code neither checks that the lengths of an assignment's
sessions sum to its effort nor that the numbers form a contiguous range
starting at 1. -/
theorem durations_and_numbers_verbatim_from_response (resp : GeminiResponse)
    (assignments : List Assignment) :
    (create_scheduled_assignments resp assignments).map
        (fun sa => (sa.session_duration, sa.session_number)) =
      (matchedSessions assignments
          (resp.newly_scheduled_assignments.getD [])).map
        (fun q => (q.2.duration.getD 0, q.2.session_number.getD 1)) := by
  rw [create_scheduled_assignments_as_map, List.map_map]
  rfl

/-- C5 counterexample: a response carrying two sessions with the same start
and length yields two distinct output sessions occupying the very same
interval, both contained in the single wide window; the code's own overlap
detector confirms the two intervals intersect, and a fortiori the
between-session gap is below any positive `min_break`. -/
theorem overlapping_sessions_produced :
    (create_scheduled_assignments ⟨some [overlapItem]⟩ [hwAssignment]).map
        (fun sa => (sa.assigned_date, sa.session_duration, sa.session_number)) =
      [(0, 3600, 1), (0, 3600, 2)] ∧
    check_overlap 0 (0 + 3600) 0 (0 + 3600) = true ∧
    wideSlot.start ≤ 0 ∧ (0 : Int) + 3600 ≤ wideSlot.start + wideSlot.duration ∧
    (0 : Int) < minPrefs.min_break_length := by
  decide

/-- C5 as amended: `create_scheduled_assignments` enforces no overlap or
break-spacing constraint on the sessions it returns; overlap is only
detected, for display purposes, by `DayWidget.check_overlap`, which returns
true exactly when the two half-open intervals share a point. -/
theorem check_overlap_detects_intersection (s1 e1 s2 e2 : Int) :
    check_overlap s1 e1 s2 e2 = true ↔
      ∃ t : Int, (s1 ≤ t ∧ t < e1) ∧ (s2 ≤ t ∧ t < e2) := by
  unfold check_overlap
  rw [decide_eq_true_eq]
  constructor
  · intro h
    exact ⟨max s1 s2,
      ⟨le_max_left _ _, h.trans_le (min_le_left _ _)⟩,
      ⟨le_max_right _ _, h.trans_le (min_le_right _ _)⟩⟩
  · rintro ⟨t, ⟨h1, h2⟩, h3, h4⟩
    exact lt_of_le_of_lt (max_le h1 h3) (lt_min h2 h4)

/-- C6 counterexample: with a single available window covering
`[0, 3600)`, a response session starting at 999999 is returned unchanged:
the resulting session's interval is contained in none of the input windows,
which `create_scheduled_assignments` never even receives. -/
theorem session_outside_all_windows_produced :
    create_scheduled_assignments ⟨some [farItem]⟩ [hwAssignment] =
      [sessionToScheduled hwAssignment ⟨999999, some 3600, some 1⟩] ∧
    ∀ w ∈ [onlySlot],
      ¬ sessionWithinSlot
        (sessionToScheduled hwAssignment ⟨999999, some 3600, some 1⟩) w := by
  decide

/-- C6 as amended: each output session's start timestamp is copied verbatim
from the response's `start_time`; the input time windows are not a parameter
of `create_scheduled_assignments`, so containment of sessions in windows is
not enforced anywhere in the pipeline. -/
theorem assigned_dates_verbatim_from_response (resp : GeminiResponse)
    (assignments : List Assignment) :
    (create_scheduled_assignments resp assignments).map
        ScheduledAssignment.assigned_date =
      (matchedSessions assignments
          (resp.newly_scheduled_assignments.getD [])).map
        (fun q => q.2.start_time) := by
  rw [create_scheduled_assignments_as_map, List.map_map]
  rfl

/-- C7: with an empty assignments list every name lookup misses, so
`create_scheduled_assignments` returns the empty list whatever the model
responded; the code's result carries no unscheduled component at all, and the
windows and preferences play no role in this function. -/
theorem create_scheduled_assignments_empty_assignments
    (gemini_response : GeminiResponse) :
    create_scheduled_assignments gemini_response [] = [] := by
  rw [create_scheduled_assignments_as_map, matchedSessions_nil_assignments]
  rfl

/-- C8: every returned scheduled assignment bears the name of some input
assignment, and a response entry whose `assignment_name` matches no input
assignment contributes nothing to the output and raises no error (the loop
just continues with the remaining entries). -/
theorem output_names_from_input_and_unknown_skipped (resp : GeminiResponse)
    (assignments : List Assignment) :
    (∀ sa ∈ create_scheduled_assignments resp assignments,
      ∃ a ∈ assignments, sa.name = a.name) ∧
    (∀ item rest,
      resp.newly_scheduled_assignments = some (item :: rest) →
      itemAssignment assignments item = none →
      create_scheduled_assignments resp assignments =
        create_scheduled_assignments ⟨some rest⟩ assignments) := by
  constructor
  · intro sa hsa
    rw [create_scheduled_assignments_as_map] at hsa
    rcases List.mem_map.mp hsa with ⟨q, hq, rfl⟩
    rcases matchedSessions_mem hq with ⟨item, _, hmatch, _⟩
    rcases itemAssignment_mem hmatch with ⟨hmem, _⟩
    exact ⟨q.1, hmem, rfl⟩
  · intro item rest hresp hnone
    simp [create_scheduled_assignments, hresp, createStep, hnone]

/-- Witness for C8: the ghost entry of the sample response is skipped and the
session produced for the matched entry is named after the input assignment. -/
theorem output_names_from_input_and_unknown_skipped_witness :
    (∃ a ∈ [hwAssignment],
      (sessionToScheduled hwAssignment hwSession).name = a.name) ∧
    create_scheduled_assignments ⟨some [unknownItem, hwItem]⟩ [hwAssignment] =
      create_scheduled_assignments ⟨some [hwItem]⟩ [hwAssignment] :=
  ⟨(output_names_from_input_and_unknown_skipped ⟨some [unknownItem, hwItem]⟩
        [hwAssignment]).1
      (sessionToScheduled hwAssignment hwSession) (by decide),
    (output_names_from_input_and_unknown_skipped ⟨some [unknownItem, hwItem]⟩
        [hwAssignment]).2
      unknownItem [hwItem] rfl (by decide)⟩

/-- C9: the response's per-item `due_date` and `expected_completion_time`
fields have no effect on the output (zeroing them all changes nothing), and
every returned session takes its due date and expected completion time from
the matching input assignment. -/
theorem due_and_effort_from_input_assignment (resp : GeminiResponse)
    (assignments : List Assignment) :
    create_scheduled_assignments (eraseResponseMeta resp) assignments =
      create_scheduled_assignments resp assignments ∧
    ∀ sa ∈ create_scheduled_assignments resp assignments,
      ∃ a ∈ assignments, sa.name = a.name ∧ sa.due_date = a.due_date ∧
        sa.expected_completion_time = a.expected_completion_time := by
  constructor
  · rw [create_scheduled_assignments_as_map, create_scheduled_assignments_as_map]
    have hitems : (eraseResponseMeta resp).newly_scheduled_assignments.getD [] =
        (resp.newly_scheduled_assignments.getD []).map eraseItemMeta := rfl
    rw [hitems, matchedSessions_eraseItemMeta]
  · intro sa hsa
    rw [create_scheduled_assignments_as_map] at hsa
    rcases List.mem_map.mp hsa with ⟨q, hq, rfl⟩
    rcases matchedSessions_mem hq with ⟨item, _, hmatch, _⟩
    rcases itemAssignment_mem hmatch with ⟨hmem, _⟩
    exact ⟨q.1, hmem, rfl, rfl, rfl⟩

/-- Witness for C9 at the sample response and assignment. -/
theorem due_and_effort_from_input_assignment_witness :
    create_scheduled_assignments (eraseResponseMeta ⟨some [hwItem]⟩)
        [hwAssignment] =
      create_scheduled_assignments ⟨some [hwItem]⟩ [hwAssignment] ∧
    ∃ a ∈ [hwAssignment],
      (sessionToScheduled hwAssignment hwSession).name = a.name ∧
      (sessionToScheduled hwAssignment hwSession).due_date = a.due_date ∧
      (sessionToScheduled hwAssignment hwSession).expected_completion_time =
        a.expected_completion_time :=
  ⟨(due_and_effort_from_input_assignment ⟨some [hwItem]⟩ [hwAssignment]).1,
    (due_and_effort_from_input_assignment ⟨some [hwItem]⟩ [hwAssignment]).2
      (sessionToScheduled hwAssignment hwSession) (by decide)⟩

/-- C10: `format_duration` reads only the normalized seconds-within-a-day
component of its argument, so for a duration of 24 hours or more the output
equals the output for that duration reduced modulo 24 hours. -/
theorem format_duration_ignores_whole_days (td : Int) (h : 86400 ≤ td) :
    format_duration td = format_duration (Int.emod td 86400) :=
  format_duration_emod_congr td (Int.emod td 86400)
    (Int.emod_emod_of_dvd td dvd_rfl).symm

/-- Witness for C10: 25 hours renders as 1 hour, the rendering of 25 hours
modulo one day. -/
theorem format_duration_ignores_whole_days_witness :
    (86400 : Int) ≤ 90000 ∧
    format_duration 90000 = format_duration (Int.emod 90000 86400) ∧
    format_duration 90000 = ("1 hour") :=
  ⟨by decide, format_duration_ignores_whole_days 90000 (by decide), by decide⟩
